import Mathlib

/-!
Verification of the core components of the ESPuino audio-player firmware:
the double-buffered file-upload pipeline (Web.cpp), the track-control state
machine (Audioplayer_TrackCtrl.h), the MQTT command bridge (Mqtt.cpp) and the
RFID tag-assignment store adapter (Web.cpp).

Machine integers are modelled as Nat with explicit reductions modulo powers of
two where C overflow semantics matter.  External calls (audio engine, logging,
queues, NVS, LED, web socket, MQTT publishes) are recorded as events in source
order.  The two concurrent tasks of the upload pipeline (network producer and
storage-writer consumer) communicate only through the buffer-full flags; the
model sequentializes them by running the consumer drain loop at the points
where the producer synchronizes on those flags, which is one admissible
interleaving of the two tasks.
-/

namespace ESPuino

/-! ## Double-buffered upload pipeline (Web.cpp, explorerHandleFileUpload and
explorerHandleFileStorageTask) -/

abbrev Byte := Nat

/-- Number of transfer buffers; mirrors the constant nr_of_buffers = 2 in Web.cpp. -/
def nr_of_buffers : Nat := 2

/-- Shared state of the upload pipeline: the two transfer buffers with their
full flags (Web.cpp lines 55-60), the write and read ring indices (false
encodes index 0, true encodes index 1), the bytes the storage task has written
to the file so far, and the recorded sizes of the buffer-full events.
The C size_in_buffer array is the length of the corresponding buffer list. -/
structure UploadState where
  chunk_size : Nat
  buf0 : List Byte
  buf1 : List Byte
  full0 : Bool
  full1 : Bool
  index_buffer_write : Bool
  index_buffer_read : Bool
  file : List Byte
  fills : List Nat
  deriving DecidableEq

def getBuf (s : UploadState) (i : Bool) : List Byte := if i then s.buf1 else s.buf0

def getFull (s : UploadState) (i : Bool) : Bool := if i then s.full1 else s.full0

def setBuf (s : UploadState) (i : Bool) (v : List Byte) : UploadState :=
  if i then { s with buf1 := v } else { s with buf0 := v }

def setFull (s : UploadState) (i : Bool) (v : Bool) : UploadState :=
  if i then { s with full1 := v } else { s with full0 := v }

/-- One iteration of the storage-task drain loop (Web.cpp lines 1409-1424):
write the full buffer at the read index to the file, clear its size and full
flag and advance the read index. -/
def drainStep (s : UploadState) : UploadState :=
  let i := s.index_buffer_read
  let s1 := { s with file := s.file ++ getBuf s i }
  let s2 := setBuf s1 i []
  let s3 := setFull s2 i false
  { s3 with index_buffer_read := !i }

def fullCount (s : UploadState) : Nat :=
  (if s.full0 then 1 else 0) + (if s.full1 then 1 else 0)

/-- The storage-task while loop: drain buffers as long as the buffer at the
read index is marked full (Web.cpp line 1409). -/
def drainFull (s : UploadState) : UploadState :=
  if h : getFull s s.index_buffer_read then drainFull (drainStep s) else s
termination_by fullCount s
decreasing_by
  cases hi : s.index_buffer_read <;>
    simp [getFull, hi] at h <;>
    simp [fullCount, drainStep, setBuf, setFull, getFull, hi, h] <;>
    omega

/-- The buffer-filled transition (Web.cpp lines 1336-1338): record the
buffer-full event, set the full flag of buffer w and advance the write index. -/
def bumpWrite (s : UploadState) (w : Bool) : UploadState :=
  let t := setFull s w true
  { t with index_buffer_write := !w, fills := t.fills ++ [t.chunk_size] }

/-- Producer body for one network callback carrying data (Web.cpp lines
1319-1351).  The wait loops on a full buffer are modelled by running the
storage-task drain loop drainFull, the only effect the concurrently scheduled
storage task has on the shared state. -/
def fillStep (s0 : UploadState) (data : List Byte) : UploadState :=
  let s := drainFull s0
  let w := s.index_buffer_write
  let space_left := s.chunk_size - (getBuf s w).length
  let len_to_write := min space_left data.length
  let s1 := setBuf s w (getBuf s w ++ data.take len_to_write)
  if (getBuf s1 w).length = s1.chunk_size then
    let s2 := bumpWrite s1 w
    if len_to_write < data.length then
      let s3 := drainFull s2
      setBuf s3 s3.index_buffer_write (data.drop len_to_write)
    else s2
  else s1

/-- One call of the upload handler for a non-final fragment: the body only
runs when len is nonzero (Web.cpp line 1319). -/
def writeChunk (s : UploadState) (data : List Byte) : UploadState :=
  if data.isEmpty then s else fillStep s data

/-- The final flush (Web.cpp line 1356): mark the partially filled write
buffer full, recording the buffer-fill event. -/
def markFinal (s : UploadState) (w : Bool) : UploadState :=
  let t := setFull s w true
  { t with fills := t.fills ++ [(getBuf s w).length] }

/-- Final-callback handling (Web.cpp lines 1353-1361) together with the
storage-task completion: a partially filled buffer is marked full (a
buffer-fill event only when the flag actually transitions), the last-chunk
notification is sent and the storage task drains the remaining full buffers
before closing the file. -/
def finishUpload (s : UploadState) : UploadState :=
  let w := s.index_buffer_write
  let s1 :=
    if 0 < (getBuf s w).length then
      if getFull s w then s else markFinal s w
    else s
  drainFull s1

/-- Buffer state at upload start (Web.cpp lines 1292-1297), with the chunk
size fixed by allocateDoubleBuffer. -/
def initUpload (C : Nat) : UploadState :=
  { chunk_size := C, buf0 := [], buf1 := [], full0 := false, full1 := false,
    index_buffer_write := false, index_buffer_read := false, file := [], fills := [] }

/-- A whole upload: the sequence of network callbacks followed by the final
callback. -/
def processUpload (C : Nat) (frags : List (List Byte)) : UploadState :=
  finishUpload (frags.foldl writeChunk (initUpload C))

/-- Helper for chunkSizes, structurally recursive on a fuel argument. -/
def chunkSizesAux (C : Nat) : Nat → Nat → List Nat
  | 0, _ => []
  | fuel + 1, n => if n = 0 then [] else min C n :: chunkSizesAux C fuel (n - C)

/-- Sizes of the successive storage chunks for a payload of n bytes streamed
through buffers of capacity C. -/
def chunkSizes (C n : Nat) : List Nat := chunkSizesAux C n n

/-! ### Reachable pipeline states

Between producer steps the pipeline is (with the drain-at-synchronization
schedule) always in one of two shapes: no buffer full and the write buffer
partially filled, or the previously written buffer full and the write buffer
holding the spill-over. -/

/-- Pipeline state with no full buffer: the write buffer (at index w, which
also is the read index) holds the partial chunk p, the other buffer is empty. -/
def stateNone (C : Nat) (w : Bool) (p file : List Byte) (fills : List Nat) :
    UploadState :=
  { chunk_size := C, buf0 := if w then [] else p, buf1 := if w then p else [],
    full0 := false, full1 := false, index_buffer_write := w,
    index_buffer_read := w, file := file, fills := fills }

/-- Pipeline state with one full buffer: buffer !w (the read index) is full
with content q, the write buffer w holds the partial chunk p. -/
def stateOne (C : Nat) (w : Bool) (q p file : List Byte) (fills : List Nat) :
    UploadState :=
  { chunk_size := C, buf0 := if w then q else p, buf1 := if w then p else q,
    full0 := w, full1 := !w, index_buffer_write := w,
    index_buffer_read := !w, file := file, fills := fills }

@[simp] lemma stateNone_chunk (C w p file fills) :
    (stateNone C w p file fills).chunk_size = C := rfl

@[simp] lemma stateNone_iw (C w p file fills) :
    (stateNone C w p file fills).index_buffer_write = w := rfl

@[simp] lemma stateNone_file (C w p file fills) :
    (stateNone C w p file fills).file = file := rfl

@[simp] lemma stateNone_fills (C w p file fills) :
    (stateNone C w p file fills).fills = fills := rfl

@[simp] lemma getBuf_stateNone_w (C w p file fills) :
    getBuf (stateNone C w p file fills) w = p := by cases w <;> rfl

@[simp] lemma getFull_stateNone (C w p file fills i) :
    getFull (stateNone C w p file fills) i = false := by
  cases w <;> cases i <;> rfl

@[simp] lemma setBuf_stateNone_w (C w p file fills v) :
    setBuf (stateNone C w p file fills) w v = stateNone C w v file fills := by
  cases w <;> rfl

@[simp] lemma getBuf_stateOne_w (C w q p file fills) :
    getBuf (stateOne C w q p file fills) w = p := by cases w <;> rfl

@[simp] lemma getFull_stateOne_w (C w q p file fills) :
    getFull (stateOne C w q p file fills) w = false := by cases w <;> rfl

lemma drainFull_not_full (s : UploadState)
    (h : getFull s s.index_buffer_read = false) : drainFull s = s := by
  rw [drainFull.eq_def]
  simp [h]

@[simp] lemma drainFull_stateNone (C w p file fills) :
    drainFull (stateNone C w p file fills) = stateNone C w p file fills := by
  apply drainFull_not_full
  simp

lemma drainStep_stateOne (C w q p file fills) :
    drainStep (stateOne C w q p file fills) = stateNone C w p (file ++ q) fills := by
  cases w <;> simp [drainStep, stateOne, stateNone, getBuf, setBuf, setFull]

@[simp] lemma drainFull_stateOne (C w q p file fills) :
    drainFull (stateOne C w q p file fills) = stateNone C w p (file ++ q) fills := by
  rw [drainFull.eq_def]
  have hc : getFull (stateOne C w q p file fills)
      (stateOne C w q p file fills).index_buffer_read = true := by
    cases w <;> rfl
  simp only [hc, dite_true, drainStep_stateOne, drainFull_stateNone]

/-- Marking the write buffer of a stateNone full gives a stateOne for the
flipped write index. -/
lemma bumpWrite_stateNone (C w v file fills) :
    bumpWrite (stateNone C w v file fills) w
      = stateOne C (!w) v [] file (fills ++ [C]) := by
  cases w <;> rfl

@[simp] lemma setFull_fills (s : UploadState) (i v) :
    (setFull s i v).fills = s.fills := by cases i <;> rfl

@[simp] lemma setFull_chunk (s : UploadState) (i v) :
    (setFull s i v).chunk_size = s.chunk_size := by cases i <;> rfl

/-- Invariant tying a reachable pipeline state to the bytes consumed so far
(done): the file plus the pending full chunk plus the partial write buffer is
exactly done, every recorded fill event has size C, and the byte counts are
consistent with the number of fill events. -/
inductive Inv (C : Nat) : UploadState → List Byte → Prop
  | none_full (w : Bool) (p file : List Byte) (k : Nat)
      (hp : p.length < C) (hfile : file.length = C * k) :
      Inv C (stateNone C w p file (List.replicate k C)) (file ++ p)
  | one_full (w : Bool) (q p file : List Byte) (k : Nat)
      (hq : q.length = C) (hp : p.length < C) (hfile : file.length + C = C * k) :
      Inv C (stateOne C w q p file (List.replicate k C)) (file ++ (q ++ p))

/-- Key step: one producer callback starting from a drained state consumes its
fragment and re-establishes the invariant (fragments are bounded by the chunk
size, as network callbacks are in the deployed system). -/
lemma fillStep_none (C : Nat) (w : Bool) (p f file : List Byte) (k : Nat)
    (hC : 0 < C) (hp : p.length < C) (hf0 : f ≠ []) (hf : f.length ≤ C)
    (hfile : file.length = C * k) :
    Inv C (fillStep (stateNone C w p file (List.replicate k C)) f)
      ((file ++ p) ++ f) := by
  simp only [fillStep, drainFull_stateNone, stateNone_iw, stateNone_chunk,
    getBuf_stateNone_w, setBuf_stateNone_w, bumpWrite_stateNone, drainFull_stateOne]
  have hfne : 0 < f.length := List.length_pos.mpr hf0
  by_cases hsp : C - p.length ≤ f.length
  · have hmin : min (C - p.length) f.length = C - p.length := min_eq_left hsp
    rw [hmin]
    have hlen : (p ++ List.take (C - p.length) f).length = C := by
      simp [List.length_take]
      omega
    rw [if_pos hlen]
    by_cases hrem : C - p.length < f.length
    · rw [if_pos hrem]
      have hsplit : List.take (C - p.length) f ++ List.drop (C - p.length) f = f :=
        List.take_append_drop _ _
      have hdone : (file ++ p) ++ f
          = (file ++ (p ++ List.take (C - p.length) f)) ++ List.drop (C - p.length) f := by
        conv_lhs => rw [← hsplit]
        simp [List.append_assoc]
      rw [hdone, ← List.replicate_succ']
      refine Inv.none_full (!w) _ _ (k + 1) ?_ ?_
      · simp only [List.length_drop]
        omega
      · simp only [List.length_append, List.length_take, hmin]
        rw [Nat.mul_succ, hfile, Nat.add_right_inj]
        omega
    · rw [if_neg hrem]
      have heq : C - p.length = f.length := by omega
      rw [heq, List.take_length, ← List.replicate_succ']
      have hdone : (file ++ p) ++ f = file ++ ((p ++ f) ++ []) := by
        simp [List.append_assoc]
      rw [hdone]
      refine Inv.one_full (!w) (p ++ f) [] file (k + 1) ?_ (by simpa using hC) ?_
      · simp
        omega
      · rw [Nat.mul_succ, hfile]
  · have hmin : min (C - p.length) f.length = f.length :=
      min_eq_right (by omega)
    rw [hmin, List.take_length]
    rw [if_neg (by simp; omega)]
    have hdone : (file ++ p) ++ f = file ++ (p ++ f) := List.append_assoc _ _ _
    rw [hdone]
    refine Inv.none_full w (p ++ f) file k ?_ hfile
    simp
    omega

/-- A producer callback starting in the one-full state behaves, after the
synchronization drain, like one starting in the drained state. -/
lemma fillStep_one (C w q p file fills f) :
    fillStep (stateOne C w q p file fills) f
      = fillStep (stateNone C w p (file ++ q) fills) f := by
  simp only [fillStep, drainFull_stateOne, drainFull_stateNone]

/-- The invariant is preserved by one upload-handler call. -/
lemma writeChunk_inv {C : Nat} {s : UploadState} {done f : List Byte}
    (hC : 0 < C) (hf : f.length ≤ C) (h : Inv C s done) :
    Inv C (writeChunk s f) (done ++ f) := by
  by_cases hfe : f = []
  · subst hfe
    simpa [writeChunk] using h
  · rw [writeChunk, if_neg (by simpa [List.isEmpty_iff] using hfe)]
    cases h with
    | none_full w p file k hp hfile =>
        exact fillStep_none C w p f file k hC hp hfe hf hfile
    | one_full w q p file k hq hp hfile =>
        rw [fillStep_one]
        have h2 := fillStep_none C w p f (file ++ q) k hC hp hfe hf
          (by simp [hq]; omega)
        simpa [List.append_assoc] using h2

/-- The invariant is preserved by any sequence of upload-handler calls. -/
lemma foldl_writeChunk_inv {C : Nat} (hC : 0 < C) :
    ∀ (frags : List (List Byte)) (s : UploadState) (done : List Byte),
      Inv C s done → (∀ f ∈ frags, f.length ≤ C) →
      Inv C (frags.foldl writeChunk s) (done ++ frags.flatten)
  | [], s, done, h, _ => by simpa using h
  | f :: rest, s, done, h, hall => by
      simp only [List.foldl_cons, List.flatten_cons]
      have h1 := writeChunk_inv hC (hall f (by simp)) h
      have h2 := foldl_writeChunk_inv hC rest (writeChunk s f) (done ++ f) h1
        (fun g hg => hall g (by simp [hg]))
      simpa [List.append_assoc] using h2

@[simp] lemma stateOne_iw (C w q p file fills) :
    (stateOne C w q p file fills).index_buffer_write = w := rfl

@[simp] lemma stateOne_file (C w q p file fills) :
    (stateOne C w q p file fills).file = file := rfl

@[simp] lemma stateOne_fills (C w q p file fills) :
    (stateOne C w q p file fills).fills = fills := rfl

lemma drainFull_markFinal_stateNone (C w p file fills) :
    drainFull (markFinal (stateNone C w p file fills) w)
      = { chunk_size := C, buf0 := [], buf1 := [], full0 := false, full1 := false,
          index_buffer_write := w, index_buffer_read := !w, file := file ++ p,
          fills := fills ++ [p.length] } := by
  cases w <;>
    · rw [drainFull.eq_def]
      simp only [markFinal, stateNone, getFull, getBuf, setFull, setBuf, drainStep]
      norm_num
      rw [drainFull.eq_def]
      simp [getFull, getBuf, setFull, setBuf, drainStep]

lemma drainFull_markFinal_stateOne (C w q p file fills) :
    drainFull (markFinal (stateOne C w q p file fills) w)
      = { chunk_size := C, buf0 := [], buf1 := [], full0 := false, full1 := false,
          index_buffer_write := w, index_buffer_read := !w,
          file := (file ++ q) ++ p, fills := fills ++ [p.length] } := by
  cases w <;>
    · rw [drainFull.eq_def]
      simp only [markFinal, stateOne, getFull, getBuf, setFull, setBuf, drainStep]
      norm_num
      rw [drainFull.eq_def]
      simp only [getFull, getBuf, setFull, setBuf, drainStep]
      norm_num
      rw [drainFull.eq_def]
      simp [getFull, getBuf, setFull, setBuf, drainStep]

lemma chunkSizesAux_zero (C : Nat) : ∀ fuel, chunkSizesAux C fuel 0 = [] := by
  intro fuel
  cases fuel <;> simp [chunkSizesAux]

lemma chunkSizesAux_split (C : Nat) (hC : 0 < C) :
    ∀ (k r fuel : Nat), r < C → C * k + r ≤ fuel →
      chunkSizesAux C fuel (C * k + r)
        = List.replicate k C ++ (if r = 0 then [] else [r]) := by
  intro k
  induction k with
  | zero =>
    intro r fuel hr hfuel
    simp only [Nat.mul_zero, Nat.zero_add] at hfuel ⊢
    by_cases hr0 : r = 0
    · subst hr0
      simp [chunkSizesAux_zero]
    · obtain ⟨fu, rfl⟩ : ∃ fu, fuel = fu + 1 := by
        cases fuel
        · omega
        · exact ⟨_, rfl⟩
      simp only [chunkSizesAux, hr0, if_false]
      have hmin : min C r = r := min_eq_right (le_of_lt hr)
      have hzero : r - C = 0 := by omega
      rw [hmin, hzero, chunkSizesAux_zero]
      simp [hr0]
  | succ k ih =>
    intro r fuel hr hfuel
    have hms : C * (k + 1) = C * k + C := Nat.mul_succ C k
    have hge : C ≤ C * (k + 1) := Nat.le_mul_of_pos_right C (Nat.succ_pos k)
    obtain ⟨fu, rfl⟩ : ∃ fu, fuel = fu + 1 := by
      cases fuel
      · omega
      · exact ⟨_, rfl⟩
    simp only [chunkSizesAux]
    rw [if_neg (by omega)]
    have hminC : min C (C * (k + 1) + r) = C := min_eq_left (by omega)
    have harg : C * (k + 1) + r - C = C * k + r := by omega
    rw [hminC, harg, ih r fu hr (by omega), List.replicate_succ, List.cons_append]

lemma chunkSizes_split (C k r : Nat) (hC : 0 < C) (hr : r < C) :
    chunkSizes C (C * k + r) = List.replicate k C ++ (if r = 0 then [] else [r]) :=
  chunkSizesAux_split C hC k r (C * k + r) hr le_rfl

lemma chunkSizes_exact (C k : Nat) (hC : 0 < C) :
    chunkSizes C (C * k) = List.replicate k C := by
  have h := chunkSizes_split C k 0 hC hC
  simpa using h

/-- The final callback flushes everything: the file is exactly the consumed
bytes and the fill events are the chunk decomposition of the payload. -/
lemma finish_inv {C : Nat} {s : UploadState} {done : List Byte}
    (hC : 0 < C) (h : Inv C s done) :
    (finishUpload s).file = done ∧
      (finishUpload s).fills = chunkSizes C done.length := by
  cases h with
  | none_full w p file k hp hfile =>
    simp only [finishUpload, stateNone_iw, getBuf_stateNone_w, getFull_stateNone,
      Bool.false_eq_true, if_false]
    by_cases hp0 : p = []
    · subst hp0
      simp only [List.length_nil, lt_irrefl, if_false, drainFull_stateNone,
        stateNone_file, stateNone_fills, List.append_nil, hfile]
      exact ⟨trivial, (chunkSizes_exact C k hC).symm⟩
    · rw [if_pos (List.length_pos.mpr hp0), drainFull_markFinal_stateNone]
      refine ⟨rfl, ?_⟩
      have hlen : (file ++ p).length = C * k + p.length := by simp [hfile]
      rw [hlen, chunkSizes_split C k p.length hC hp,
        if_neg (by simpa [List.length_eq_zero] using hp0)]
  | one_full w q p file k hq hp hfile =>
    simp only [finishUpload, stateOne_iw, getBuf_stateOne_w, getFull_stateOne_w,
      Bool.false_eq_true, if_false]
    by_cases hp0 : p = []
    · subst hp0
      simp only [List.length_nil, lt_irrefl, if_false, drainFull_stateOne,
        stateNone_file, stateNone_fills, List.append_nil]
      have hlen : (file ++ q).length = C * k := by simp [hq]; omega
      rw [hlen]
      exact ⟨trivial, (chunkSizes_exact C k hC).symm⟩
    · rw [if_pos (List.length_pos.mpr hp0), drainFull_markFinal_stateOne]
      constructor
      · simp [List.append_assoc]
      · have hlen : (file ++ (q ++ p)).length = C * k + p.length := by
          simp [hq]
          omega
        rw [hlen, chunkSizes_split C k p.length hC hp,
          if_neg (by simpa [List.length_eq_zero] using hp0)]

/-- C1: for every upload delivered as a sequence of network-callback
fragments, the bytes written to the file by the storage-writer task equal the
bytes received, in the order received, regardless of how the payload is
fragmented across calls to the upload handler, and the buffer-full events are
exactly the chunk decomposition of the payload; in particular a 10000-byte
payload with chunk size 4096 and two buffers yields exactly the three
buffer-fill events 4096, 4096, 1808 and a storage write total of 10000 bytes.
Fragments are bounded by the chunk size, which the network layer guarantees;
a larger single fragment would overflow the C buffer (memcpy past the end). -/
theorem upload_pipeline_roundtrip (C : Nat) (frags : List (List Byte))
    (hC : 0 < C) (hfr : ∀ f ∈ frags, f.length ≤ C) :
    (processUpload C frags).file = frags.flatten ∧
    (processUpload C frags).fills = chunkSizes C frags.flatten.length ∧
    (C = 4096 → frags.flatten.length = 10000 →
      (processUpload C frags).fills = [4096, 4096, 1808] ∧
      (processUpload C frags).file.length = 10000) := by
  simp only [processUpload]
  have h0 : Inv C (initUpload C) [] := by
    have h := Inv.none_full (C := C) false [] [] 0 (by simpa using hC) (by simp)
    simpa [stateNone, initUpload] using h
  have h1 := foldl_writeChunk_inv hC frags (initUpload C) [] h0 hfr
  rw [List.nil_append] at h1
  have h2 := finish_inv hC h1
  refine ⟨h2.1, h2.2, ?_⟩
  rintro rfl hlen
  refine ⟨?_, ?_⟩
  · rw [h2.2, hlen]
    have hd : (10000 : Nat) = 4096 * 2 + 1808 := by norm_num
    rw [hd, chunkSizes_split 4096 2 1808 (by norm_num) (by norm_num)]
    rfl
  · rw [h2.1, hlen]

/-- Concrete witness for upload_pipeline_roundtrip: a five-fragment upload
with chunk size 3. -/
theorem upload_pipeline_roundtrip_witness :
    0 < 3 ∧ (∀ f ∈ [[1, 2], [3, 4, 5], [6], [], [7]], List.length f ≤ 3) ∧
      ((processUpload 3 [[1, 2], [3, 4, 5], [6], [], [7]]).file
          = List.flatten [[1, 2], [3, 4, 5], [6], [], [7]] ∧
        (processUpload 3 [[1, 2], [3, 4, 5], [6], [], [7]]).fills
          = chunkSizes 3 (List.flatten [[1, 2], [3, 4, 5], [6], [], [7]]).length ∧
        (3 = 4096 → (List.flatten [[1, 2], [3, 4, 5], [6], [], [7]]).length = 10000 →
          (processUpload 3 [[1, 2], [3, 4, 5], [6], [], [7]]).fills = [4096, 4096, 1808] ∧
          (processUpload 3 [[1, 2], [3, 4, 5], [6], [], [7]]).file.length = 10000)) :=
  ⟨by norm_num, by decide,
    upload_pipeline_roundtrip 3 [[1, 2], [3, 4, 5], [6], [], [7]] (by norm_num) (by decide)⟩

/-! ## Track-control state machine (Audioplayer_TrackCtrl.h) -/

/-- Modelled from the spec: track-control command constants come from values.h,
which is not among the provided sources; only their pairwise distinctness and
the zero no-op value are relied upon. -/
def STOP : Nat := 1

def PAUSEPLAY : Nat := 3

def NEXTTRACK : Nat := 4

def PREVIOUSTRACK : Nat := 5

def FIRSTTRACK : Nat := 6

def LASTTRACK : Nat := 7

/-- Modelled from the spec: play-mode constants from values.h (not among the
provided sources); only pairwise distinctness matters. -/
def NO_PLAYLIST : Nat := 0

def WEBSTREAM : Nat := 8

def LOCAL_M3U : Nat := 11

/-- Modelled from the spec: repeat-mode constants from values.h (not among the
provided sources). -/
def NO_REPEAT : Nat := 0

def TRACK : Nat := 1

def PLAYLIST : Nat := 2

def TRACK_N_PLAYLIST : Nat := 3

/-- Modelled from the spec: the title shown when no playlist is active
(logmessages, not among the provided sources). -/
def noPlaylistTitle : String := "No playlist active"

/-- The fields of the global gPlayProperties record that the modelled code
reads or writes.  The playlist pointer is an Option; dereferencing a null
playlist would crash in C, the model reads it through a default and theorems
restrict to states with a valid playlist where the playlist matters. -/
structure PlayProps where
  pausePlay : Bool
  playlistFinished : Bool
  playMode : Nat
  currentTrackNumber : Nat
  repeatCurrentTrack : Bool
  repeatPlaylist : Bool
  saveLastPlayPosition : Bool
  playRfidTag : String
  playlist : Option (List String)
  sleepAfterPlaylist : Bool
  sleepAfterCurrentTrack : Bool
  playUntilTrackNumber : Nat
  trackFinished : Bool
  deriving DecidableEq

def playlistSize (p : PlayProps) : Nat := (p.playlist.getD []).length

def playlistAt (p : PlayProps) (i : Nat) : String := (p.playlist.getD []).getD i ""

/-- The audio-engine queries used by executeTrackCommand, supplied as pure
values; connectSuccess is the return value of connecttoFS. -/
structure Audio where
  getFilePos : Nat
  inBufferFilled : Nat
  getAudioCurrentTime : Nat
  connectSuccess : Bool
  deriving DecidableEq

/-- Log-message identifiers appearing in the modelled code. -/
inductive LogMsg
  | cmndStop
  | cmndPause
  | cmndResumeFromPause
  | trackPausedAtPos
  | cmndNextTrack
  | lastTrackAlreadyActive
  | trackStartAudiobook
  | cmndPrevTrack
  | trackChangeWebstream
  | trackStart
  | cmndFirstTrack
  | cmndLastTrack
  | cmndDoesNotExist
  | mqttMsgReceived
  | modificatorNotallowedWhenIdle
  | sleepTimerEOP
  | sleepTimerEOT
  | sleepTimerEO5
  | sleepTimerStop
  | sleepTimerAlreadyStopped
  | sleepTimerSetTo
  | allowButtons
  | lockButtons
  | repeatModeReceived
  | modeRepeatNone
  | modeRepeatTrack
  | modeRepeatPlaylist
  | modeRepeatTracknPlaylist
  | noPlaylistNotAllowedMqtt
  | noValidTopic
  deriving DecidableEq

/-- External side effects of the modelled code, recorded in source order. -/
inductive Event
  | stopSong
  | pauseResume
  | logMsg (m : LogMsg)
  | indicateError
  | indicateOk
  | setTitle (s : String)
  | clearCover
  | nvsRfidWrite (tag track : String) (pos mode trackNo numTracks : Nat)
  | sendTrackInfo (client : Nat)
  | publishRepeatMode
  | publishNum (topic : String) (v : Nat)
  | publishStr (topic payload : String)
  | ledIndicateRewind
  | connectToFS (track : String)
  | requestSleep
  | rfidQueueSend (payload : List Char)
  | volumeQueue (v : Nat) (fromButton : Bool)
  | setSleepTimer (v : Nat)
  | disableSleepTimer
  | trackQueue (cmd : Nat)
  | setLockControls (b : Bool)
  | setLedBrightness (v : Nat)
  | setNightmode (b : Bool)
  deriving DecidableEq

/-- Unsigned 32-bit subtraction, as performed by the C expression
audio.getFilePos() - audio.inBufferFilled(). -/
def u32sub (a b : Nat) : Nat :=
  (a % 4294967296 + (4294967296 - b % 4294967296)) % 4294967296

/-- Shallow embedding of AudioPlayer_TrackCtrl::executeTrackCommand
(Audioplayer_TrackCtrl.h lines 35-206).  External calls (audio engine,
logging, MQTT publish, NVS write, web socket) are recorded as events in source
order; the null-audio guard of lines 36-38 is the none case. -/
def executeTrackCommand (audio : Option Audio) (cmd : Nat) (p : PlayProps) :
    PlayProps × List Event :=
  match audio with
  | none => (p, [])
  | some audio =>
    if cmd = STOP then
      ({ p with pausePlay := true, playlistFinished := true, playMode := NO_PLAYLIST },
       [.stopSong, .logMsg .cmndStop, .setTitle noPlaylistTitle, .clearCover])
    else if cmd = PAUSEPLAY then
      let ev0 : List Event :=
        [.pauseResume, .logMsg (if p.pausePlay then .cmndResumeFromPause else .cmndPause)]
      let ev1 : List Event :=
        if p.saveLastPlayPosition && !p.pausePlay then
          [.logMsg .trackPausedAtPos,
           .nvsRfidWrite p.playRfidTag (playlistAt p p.currentTrackNumber)
             (u32sub audio.getFilePos audio.inBufferFilled) p.playMode
             p.currentTrackNumber (playlistSize p)]
        else []
      ({ p with pausePlay := !p.pausePlay }, ev0 ++ ev1 ++ [.sendTrackInfo 0])
    else if cmd = NEXTTRACK then
      let pe : PlayProps × List Event :=
        if p.pausePlay then ({ p with pausePlay := false }, [.pauseResume]) else (p, [])
      let p := pe.1
      let pr : PlayProps × List Event :=
        if p.repeatCurrentTrack then
          ({ p with repeatCurrentTrack := false }, [.publishRepeatMode])
        else (p, [])
      let p := pr.1
      if p.currentTrackNumber + 1 < playlistSize p || p.repeatPlaylist then
        let p :=
          if playlistSize p ≤ p.currentTrackNumber + 1 && p.repeatPlaylist then
            { p with currentTrackNumber := 0 }
          else { p with currentTrackNumber := p.currentTrackNumber + 1 }
        let evC : List Event :=
          if p.saveLastPlayPosition then
            [.nvsRfidWrite p.playRfidTag (playlistAt p p.currentTrackNumber) 0
               p.playMode p.currentTrackNumber (playlistSize p),
             .logMsg .trackStartAudiobook]
          else []
        let evD : List Event := if !p.playlistFinished then [.stopSong] else []
        (p, pe.2 ++ pr.2 ++ evC ++ [.logMsg .cmndNextTrack] ++ evD)
      else
        (p, pe.2 ++ pr.2 ++ [.logMsg .lastTrackAlreadyActive, .indicateError])
    else if cmd = PREVIOUSTRACK then
      let pe : PlayProps × List Event :=
        if p.pausePlay then ({ p with pausePlay := false }, [.pauseResume]) else (p, [])
      let p := pe.1
      let pr : PlayProps × List Event :=
        if p.repeatCurrentTrack then
          ({ p with repeatCurrentTrack := false }, [.publishRepeatMode])
        else (p, [])
      let p := pr.1
      if p.playMode = WEBSTREAM then
        (p, pe.2 ++ pr.2 ++ [.logMsg .trackChangeWebstream, .indicateError])
      else if p.playMode = LOCAL_M3U then
        if 0 < p.currentTrackNumber then
          ({ p with currentTrackNumber := p.currentTrackNumber - 1 },
           pe.2 ++ pr.2 ++ [.logMsg .cmndPrevTrack])
        else
          (p, pe.2 ++ pr.2 ++ [.logMsg .cmndPrevTrack, .indicateError])
      else
        if 0 < p.currentTrackNumber || p.repeatPlaylist then
          let p :=
            if audio.getAudioCurrentTime < 5 then
              if p.currentTrackNumber = 0 && p.repeatPlaylist then
                { p with currentTrackNumber := playlistSize p - 1 }
              else { p with currentTrackNumber := p.currentTrackNumber - 1 }
            else p
          let evC : List Event :=
            if p.saveLastPlayPosition then
              [.nvsRfidWrite p.playRfidTag (playlistAt p p.currentTrackNumber) 0
                 p.playMode p.currentTrackNumber (playlistSize p),
               .logMsg .trackStartAudiobook]
            else []
          let evD : List Event := if !p.playlistFinished then [.stopSong] else []
          (p, pe.2 ++ pr.2 ++ evC ++ [.logMsg .cmndPrevTrack] ++ evD)
        else
          let evC : List Event :=
            if p.saveLastPlayPosition then
              [.nvsRfidWrite p.playRfidTag (playlistAt p p.currentTrackNumber) 0
                 p.playMode p.currentTrackNumber (playlistSize p)]
            else []
          if audio.connectSuccess then
            (p, pe.2 ++ pr.2 ++ evC ++
              [.stopSong, .ledIndicateRewind,
               .connectToFS (playlistAt p p.currentTrackNumber), .logMsg .trackStart])
          else
            ({ p with trackFinished := true },
             pe.2 ++ pr.2 ++ evC ++
              [.stopSong, .ledIndicateRewind,
               .connectToFS (playlistAt p p.currentTrackNumber), .indicateError])
    else if cmd = FIRSTTRACK then
      let pe : PlayProps × List Event :=
        if p.pausePlay then ({ p with pausePlay := false }, [.pauseResume]) else (p, [])
      let p := pe.1
      let p := { p with currentTrackNumber := 0 }
      let evC : List Event :=
        if p.saveLastPlayPosition then
          [.nvsRfidWrite p.playRfidTag (playlistAt p p.currentTrackNumber) 0
             p.playMode p.currentTrackNumber (playlistSize p),
           .logMsg .trackStartAudiobook]
        else []
      let evD : List Event := if !p.playlistFinished then [.stopSong] else []
      (p, pe.2 ++ evC ++ [.logMsg .cmndFirstTrack] ++ evD)
    else if cmd = LASTTRACK then
      let pe : PlayProps × List Event :=
        if p.pausePlay then ({ p with pausePlay := false }, [.pauseResume]) else (p, [])
      let p := pe.1
      if p.currentTrackNumber + 1 < playlistSize p then
        let p := { p with currentTrackNumber := playlistSize p - 1 }
        let evC : List Event :=
          if p.saveLastPlayPosition then
            [.nvsRfidWrite p.playRfidTag (playlistAt p p.currentTrackNumber) 0
               p.playMode p.currentTrackNumber (playlistSize p),
             .logMsg .trackStartAudiobook]
          else []
        let evD : List Event := if !p.playlistFinished then [.stopSong] else []
        (p, pe.2 ++ evC ++ [.logMsg .cmndLastTrack] ++ evD)
      else
        (p, pe.2 ++ [.logMsg .lastTrackAlreadyActive, .indicateError])
    else if cmd = 0 then (p, [])
    else (p, [.logMsg .cmndDoesNotExist, .indicateError])

/-- Discriminator for the NVS resume-position write event. -/
def isNvsWrite : Event → Bool
  | .nvsRfidWrite _ _ _ _ _ _ => true
  | _ => false

/-- C10: with a null audio pointer executeTrackCommand returns immediately,
leaving every field of the shared playback state unchanged and performing no
external action, for every command value including STOP. -/
theorem executeTrackCommand_null_audio (cmd : Nat) (p : PlayProps) :
    executeTrackCommand none cmd p = (p, []) := rfl

/-- C2: NEXTTRACK at the last playlist index leaves the index unchanged and
signals an error when playlist-repeat is disabled, and wraps the index to 0
when playlist-repeat is enabled. -/
theorem nexttrack_at_last_index (a : Audio) (p : PlayProps) (pl : List String)
    (hpl : p.playlist = some pl) (hlast : p.currentTrackNumber + 1 = pl.length) :
    (p.repeatPlaylist = false →
      (executeTrackCommand (some a) NEXTTRACK p).1.currentTrackNumber
          = p.currentTrackNumber ∧
        Event.indicateError ∈ (executeTrackCommand (some a) NEXTTRACK p).2) ∧
    (p.repeatPlaylist = true →
      (executeTrackCommand (some a) NEXTTRACK p).1.currentTrackNumber = 0) := by
  obtain ⟨pp, pf, pm, cur, rct, rpl, save, tag, plst, sap, sact, pu, tf⟩ := p
  simp only at hpl hlast
  subst hpl
  constructor
  · rintro rfl
    cases pp <;> cases rct <;>
      simp [executeTrackCommand, STOP, PAUSEPLAY, NEXTTRACK, playlistSize, hlast]
  · rintro rfl
    cases pp <;> cases rct <;> cases pf <;> cases save <;>
      simp [executeTrackCommand, STOP, PAUSEPLAY, NEXTTRACK, playlistSize, hlast]

/-- C7: PREVIOUSTRACK in webstream play-mode signals an error and leaves the
current track index unchanged. -/
theorem previoustrack_webstream_error (a : Audio) (p : PlayProps)
    (hws : p.playMode = WEBSTREAM) :
    Event.indicateError ∈ (executeTrackCommand (some a) PREVIOUSTRACK p).2 ∧
      (executeTrackCommand (some a) PREVIOUSTRACK p).1.currentTrackNumber
        = p.currentTrackNumber := by
  obtain ⟨pp, pf, pm, cur, rct, rpl, save, tag, plst, sap, sact, pu, tf⟩ := p
  simp only at hws
  subst hws
  cases pp <;> cases rct <;>
    simp [executeTrackCommand, STOP, PAUSEPLAY, NEXTTRACK, PREVIOUSTRACK, WEBSTREAM]

/-- Counterexample to C3 as stated: resuming playback from the paused state
(pausePlay = true before the command) with saveLastPlayPosition enabled does
not persist anything; the code persists on the transition into pause instead
(the guard at Audioplayer_TrackCtrl.h line 58 requires pausePlay to be false). -/
theorem pauseplay_resume_no_persist_cex :
    ((executeTrackCommand (some ⟨1000, 100, 0, true⟩) PAUSEPLAY
        { pausePlay := true, playlistFinished := false, playMode := 2,
          currentTrackNumber := 0, repeatCurrentTrack := false,
          repeatPlaylist := false, saveLastPlayPosition := true,
          playRfidTag := "tag1", playlist := some ["trackA"],
          sleepAfterPlaylist := false, sleepAfterCurrentTrack := false,
          playUntilTrackNumber := 0, trackFinished := false }).2).filter isNvsWrite
      = [] := by decide

/-- C3 as amended: PAUSEPLAY persists the current track reference and the
computed byte offset (file position minus buffered-but-unplayed bytes) exactly
when it pauses playback from the playing state (pausePlay = false before the
command) with saveLastPlayPosition enabled, using the pre-flip state; when it
resumes from pause, or when saveLastPlayPosition is disabled, nothing is
persisted; the pause flag is then flipped and the updated track info is
always broadcast.  Stated for every audio engine and every playback state. -/
theorem pauseplay_persists_on_pause (a : Audio) (p : PlayProps) :
    (p.pausePlay = false → p.saveLastPlayPosition = true →
      Event.nvsRfidWrite p.playRfidTag (playlistAt p p.currentTrackNumber)
          (u32sub a.getFilePos a.inBufferFilled) p.playMode p.currentTrackNumber
          (playlistSize p) ∈ (executeTrackCommand (some a) PAUSEPLAY p).2) ∧
      (p.pausePlay = true ∨ p.saveLastPlayPosition = false →
        ∀ e ∈ (executeTrackCommand (some a) PAUSEPLAY p).2, isNvsWrite e = false) ∧
      (executeTrackCommand (some a) PAUSEPLAY p).1.pausePlay = !p.pausePlay ∧
      Event.sendTrackInfo 0 ∈ (executeTrackCommand (some a) PAUSEPLAY p).2 := by
  refine ⟨?_, ?_, ?_, ?_⟩
  · intro hplaying hsave
    simp [executeTrackCommand, STOP, PAUSEPLAY, hplaying, hsave]
  · rintro (hpaused | hnosave)
    · simp [executeTrackCommand, STOP, PAUSEPLAY, hpaused, isNvsWrite]
    · simp [executeTrackCommand, STOP, PAUSEPLAY, hnosave, isNvsWrite]
  · simp [executeTrackCommand, STOP, PAUSEPLAY]
  · rcases hpp : p.pausePlay <;> rcases hsv : p.saveLastPlayPosition <;>
      simp [executeTrackCommand, STOP, PAUSEPLAY, hpp, hsv]

/-- A concrete audio-engine snapshot for witnesses. -/
def demoAudio : Audio := ⟨1000, 100, 0, true⟩

/-- A concrete state sitting on the last index of a two-track playlist. -/
def c2Props : PlayProps :=
  { pausePlay := false, playlistFinished := false, playMode := 2,
    currentTrackNumber := 1, repeatCurrentTrack := false, repeatPlaylist := false,
    saveLastPlayPosition := false, playRfidTag := "tag2",
    playlist := some ["a", "b"], sleepAfterPlaylist := false,
    sleepAfterCurrentTrack := false, playUntilTrackNumber := 0,
    trackFinished := false }

theorem nexttrack_at_last_index_witness :
    c2Props.playlist = some ["a", "b"] ∧
      c2Props.currentTrackNumber + 1 = ["a", "b"].length ∧
      ((c2Props.repeatPlaylist = false →
          (executeTrackCommand (some demoAudio) NEXTTRACK c2Props).1.currentTrackNumber
              = c2Props.currentTrackNumber ∧
            Event.indicateError
              ∈ (executeTrackCommand (some demoAudio) NEXTTRACK c2Props).2) ∧
        (c2Props.repeatPlaylist = true →
          (executeTrackCommand (some demoAudio) NEXTTRACK c2Props).1.currentTrackNumber
            = 0)) :=
  ⟨rfl, rfl, nexttrack_at_last_index demoAudio c2Props ["a", "b"] rfl rfl⟩

/-- A concrete webstream playback state. -/
def c7Props : PlayProps :=
  { pausePlay := false, playlistFinished := false, playMode := WEBSTREAM,
    currentTrackNumber := 3, repeatCurrentTrack := false, repeatPlaylist := false,
    saveLastPlayPosition := false, playRfidTag := "tag3",
    playlist := some ["a", "b", "c", "d"], sleepAfterPlaylist := false,
    sleepAfterCurrentTrack := false, playUntilTrackNumber := 0,
    trackFinished := false }

theorem previoustrack_webstream_error_witness :
    c7Props.playMode = WEBSTREAM ∧
      (Event.indicateError
          ∈ (executeTrackCommand (some demoAudio) PREVIOUSTRACK c7Props).2 ∧
        (executeTrackCommand (some demoAudio) PREVIOUSTRACK c7Props).1.currentTrackNumber
          = c7Props.currentTrackNumber) :=
  ⟨rfl, previoustrack_webstream_error demoAudio c7Props rfl⟩

/-! ## MQTT command bridge (Mqtt.cpp) -/

/-- Modelled from the spec: the MQTT topic name constants come from settings
headers that are not among the provided sources; only their pairwise
distinctness matters. -/
def topicSleepCmnd : String := "Cmnd/Sleep"

def topicRfidCmnd : String := "Cmnd/Rfid"

def topicLoudnessCmnd : String := "Cmnd/Loudness"

def topicSleepTimerCmnd : String := "Cmnd/SleepTimer"

def topicTrackControlCmnd : String := "Cmnd/TrackControl"

def topicLockControlsCmnd : String := "Cmnd/LockControls"

def topicRepeatModeCmnd : String := "Cmnd/RepeatMode"

def topicLedBrightnessCmnd : String := "Cmnd/LedBrightness"

def topicSleepState : String := "State/Sleep"

def topicSleepTimerState : String := "State/SleepTimer"

def topicLockControlsState : String := "State/LockControls"

/-- Modelled from the spec: length of an RFID card-id string including the
terminator (values.h, not among the provided sources). -/
def cardIdStringSize : Nat := 13

def leadingDigits (s : List Char) : List Char := s.takeWhile Char.isDigit

def digitsVal (ds : List Char) : Nat :=
  ds.foldl (fun a c => a * 10 + (c.toNat - 48)) 0

/-- Shallow embedding of the toNumber template (Mqtt.cpp lines 349-363) for an
unsigned target type with maximum maxVal: mirrors std::from_chars, returning
the parsed value, the type maximum on result_out_of_range, and 0 when the
payload does not start with a digit (invalid_argument). -/
def toNumber (maxVal : Nat) (s : List Char) : Nat :=
  let ds := leadingDigits s
  if ds = [] then 0
  else if maxVal < digitsVal ds then maxVal
  else digitsVal ds

/-- Shallow embedding of toNumber instantiated at int32_t (used for the
loudness topic): from_chars accepts a leading minus sign for signed types and
the template returns the type maximum on any out-of-range result. -/
def toNumberI32 (s : List Char) : Int :=
  let pair : Bool × List Char :=
    match s with
    | '-' :: r => (true, r)
    | _ => (false, s)
  let ds := leadingDigits pair.2
  if ds = [] then 0
  else
    let v : Int := (if pair.1 then -1 else 1) * (digitsVal ds : Int)
    if v < -2147483648 ∨ 2147483647 < v then 2147483647 else v

/-- Conversion of the int32_t loudness value to the unsigned long local
variable (Mqtt.cpp line 392). -/
def uint32OfInt (v : Int) : Nat := (v % 4294967296).toNat

/-- Shallow embedding of Mqtt_ClientCallback (Mqtt.cpp lines 366-541).
External calls are recorded as events; the gPlayProperties mutations are
threaded through the returned PlayProps.  The System_IsSleepTimerEnabled
query is supplied as the input sysSleepTimerEnabled.  The size_t underflow of
playlist-size minus one for an empty playlist in the EO5T branch is not
modelled (that branch already requires an active playlist). -/
def Mqtt_ClientCallback (sysSleepTimerEnabled : Bool) (topic : String)
    (payload : List Char) (p : PlayProps) : PlayProps × List Event :=
  if payload.length = 0 then (p, [])
  else
    let ev0 : List Event := [.logMsg .mqttMsgReceived]
    if topic = topicSleepCmnd then
      (p, ev0 ++ if payload = "OFF".toList ∨ payload = "0".toList then [.requestSleep] else [])
    else if topic = topicRfidCmnd then
      if cardIdStringSize - 1 ≤ payload.length then (p, ev0 ++ [.rfidQueueSend payload])
      else (p, ev0 ++ [.indicateError])
    else if topic = topicLoudnessCmnd then
      (p, ev0 ++ [.volumeQueue (uint32OfInt (toNumberI32 payload)) true])
    else if topic = topicSleepTimerCmnd then
      if p.playMode = NO_PLAYLIST then
        (p, ev0 ++ [.logMsg .modificatorNotallowedWhenIdle,
          .publishNum topicSleepState 0, .indicateError])
      else if payload = "EOP".toList then
        ({ p with sleepAfterPlaylist := true },
         ev0 ++ [.logMsg .sleepTimerEOP, .publishStr topicSleepTimerState "EOP",
           .setNightmode true, .indicateOk])
      else if payload = "EOT".toList then
        ({ p with sleepAfterCurrentTrack := true },
         ev0 ++ [.logMsg .sleepTimerEOT, .publishStr topicSleepTimerState "EOT",
           .setNightmode true, .indicateOk])
      else if payload = "EO5T".toList then
        if p.playMode = NO_PLAYLIST ∨ p.playlist = none then
          (p, ev0 ++ [.logMsg .modificatorNotallowedWhenIdle, .indicateError])
        else
          let p1 :=
            if p.currentTrackNumber + 5 ≤ playlistSize p - 1 then
              { p with playUntilTrackNumber := p.currentTrackNumber + 5 }
            else { p with sleepAfterPlaylist := true }
          (p1, ev0 ++ [.logMsg .sleepTimerEO5, .publishStr topicSleepTimerState "EO5T",
            .setNightmode true, .indicateOk])
      else if payload = "0".toList then
        if sysSleepTimerEnabled then
          ({ p with
              sleepAfterPlaylist := false, sleepAfterCurrentTrack := false,
              playUntilTrackNumber := 0 },
           ev0 ++ [.disableSleepTimer, .logMsg .sleepTimerStop, .indicateOk,
             .setNightmode false, .publishNum topicSleepState 0])
        else (p, ev0 ++ [.logMsg .sleepTimerAlreadyStopped, .indicateError])
      else
        ({ p with sleepAfterPlaylist := false, sleepAfterCurrentTrack := false },
         ev0 ++ [.setSleepTimer (toNumber 255 payload), .logMsg .sleepTimerSetTo,
           .indicateOk])
    else if topic = topicTrackControlCmnd then
      (p, ev0 ++ [.trackQueue (toNumber 255 payload)])
    else if topic = topicLockControlsCmnd then
      if payload = "OFF".toList then
        (p, ev0 ++ [.setLockControls false, .logMsg .allowButtons,
          .publishStr topicLockControlsState "OFF", .indicateOk])
      else if payload = "ON".toList then
        (p, ev0 ++ [.setLockControls true, .logMsg .lockButtons,
          .publishStr topicLockControlsState "ON", .indicateOk])
      else (p, ev0)
    else if topic = topicRepeatModeCmnd then
      let repeatMode := toNumber 255 payload
      let ev1 : List Event := ev0 ++ [.logMsg .repeatModeReceived]
      if p.playMode ≠ NO_PLAYLIST then
        if p.playMode = NO_PLAYLIST then
          (p, ev1 ++ [.publishRepeatMode, .logMsg .noPlaylistNotAllowedMqtt,
            .indicateError])
        else if repeatMode = NO_REPEAT then
          ({ p with repeatCurrentTrack := false, repeatPlaylist := false },
           ev1 ++ [.publishRepeatMode, .logMsg .modeRepeatNone, .indicateOk])
        else if repeatMode = TRACK then
          ({ p with repeatCurrentTrack := true, repeatPlaylist := false },
           ev1 ++ [.publishRepeatMode, .logMsg .modeRepeatTrack, .indicateOk])
        else if repeatMode = PLAYLIST then
          ({ p with repeatCurrentTrack := false, repeatPlaylist := true },
           ev1 ++ [.publishRepeatMode, .logMsg .modeRepeatPlaylist, .indicateOk])
        else if repeatMode = TRACK_N_PLAYLIST then
          ({ p with repeatCurrentTrack := true, repeatPlaylist := true },
           ev1 ++ [.publishRepeatMode, .logMsg .modeRepeatTracknPlaylist, .indicateOk])
        else (p, ev1 ++ [.indicateError, .publishRepeatMode])
      else (p, ev1)
    else if topic = topicLedBrightnessCmnd then
      (p, ev0 ++ [.setLedBrightness (toNumber 255 payload)])
    else (p, ev0 ++ [.logMsg .noValidTopic, .indicateError])

/-- C9: a zero-length payload makes the callback return immediately with no
state change and no external effect, for every subscribed topic. -/
theorem mqtt_empty_payload_noop (sys : Bool) (topic : String) (p : PlayProps) :
    Mqtt_ClientCallback sys topic [] p = (p, []) := rfl

/-- C8: the branch of the repeat-mode handler guarded by the inner re-check of
playMode = NO_PLAYLIST (Mqtt.cpp lines 482-485), whose distinguishing effect
is the noPlaylistNotAllowedMqtt log, is unreachable: it is nested inside the
condition playMode different from NO_PLAYLIST, so no payload and no playback
state ever reach it. -/
theorem repeat_mode_dead_branch (sys : Bool) (payload : List Char) (p : PlayProps) :
    Event.logMsg LogMsg.noPlaylistNotAllowedMqtt
      ∉ (Mqtt_ClientCallback sys topicRepeatModeCmnd payload p).2 := by
  have h1 : topicRepeatModeCmnd ≠ topicSleepCmnd := by decide
  have h2 : topicRepeatModeCmnd ≠ topicRfidCmnd := by decide
  have h3 : topicRepeatModeCmnd ≠ topicLoudnessCmnd := by decide
  have h4 : topicRepeatModeCmnd ≠ topicSleepTimerCmnd := by decide
  have h5 : topicRepeatModeCmnd ≠ topicTrackControlCmnd := by decide
  have h6 : topicRepeatModeCmnd ≠ topicLockControlsCmnd := by decide
  by_cases hlen : payload.length = 0
  · simp [Mqtt_ClientCallback, hlen]
  · by_cases hnp : p.playMode = NO_PLAYLIST
    · simp only [Mqtt_ClientCallback, if_neg hlen, if_neg h1, if_neg h2, if_neg h3,
        if_neg h4, if_neg h5, if_neg h6, if_pos rfl]
      simp [hnp]
    · simp only [Mqtt_ClientCallback, if_neg hlen, if_neg h1, if_neg h2, if_neg h3,
        if_neg h4, if_neg h5, if_neg h6, if_pos rfl]
      simp only [ne_eq, hnp, not_false_eq_true, if_true, if_neg hnp]
      split_ifs <;> simp_all

/-- C6: on the LED-brightness topic the decoded value is toNumber at the
uint8 maximum: a numeric payload whose value exceeds 255 decodes to exactly
255 (no wrap-around), and a payload that does not start with a digit decodes
to 0; the callback performs exactly the brightness update. -/
theorem led_brightness_clamp (sys : Bool) (p : PlayProps) (payload : List Char)
    (hne : payload ≠ []) :
    Mqtt_ClientCallback sys topicLedBrightnessCmnd payload p
        = (p, [.logMsg .mqttMsgReceived,
               .setLedBrightness (toNumber 255 payload)]) ∧
      (255 < digitsVal (leadingDigits payload) → toNumber 255 payload = 255) ∧
      (leadingDigits payload = [] → toNumber 255 payload = 0) := by
  have h1 : topicLedBrightnessCmnd ≠ topicSleepCmnd := by decide
  have h2 : topicLedBrightnessCmnd ≠ topicRfidCmnd := by decide
  have h3 : topicLedBrightnessCmnd ≠ topicLoudnessCmnd := by decide
  have h4 : topicLedBrightnessCmnd ≠ topicSleepTimerCmnd := by decide
  have h5 : topicLedBrightnessCmnd ≠ topicTrackControlCmnd := by decide
  have h6 : topicLedBrightnessCmnd ≠ topicLockControlsCmnd := by decide
  have h7 : topicLedBrightnessCmnd ≠ topicRepeatModeCmnd := by decide
  have hlen : ¬ payload.length = 0 := by
    simpa [List.length_eq_zero] using hne
  refine ⟨?_, ?_, ?_⟩
  · simp only [Mqtt_ClientCallback, if_neg hlen, if_neg h1, if_neg h2, if_neg h3,
      if_neg h4, if_neg h5, if_neg h6, if_neg h7, if_pos rfl]
    rfl
  · intro hbig
    have hds : leadingDigits payload ≠ [] := by
      intro h
      rw [h] at hbig
      simp [digitsVal] at hbig
    simp [toNumber, hds, hbig]
  · intro hds
    simp [toNumber, hds]

/-- A concrete playback state for the MQTT witnesses. -/
def mqttProps : PlayProps :=
  { pausePlay := false, playlistFinished := false, playMode := 2,
    currentTrackNumber := 0, repeatCurrentTrack := false, repeatPlaylist := false,
    saveLastPlayPosition := false, playRfidTag := "tag4",
    playlist := some ["a"], sleepAfterPlaylist := false,
    sleepAfterCurrentTrack := false, playUntilTrackNumber := 0,
    trackFinished := false }

theorem led_brightness_clamp_witness :
    "99999999999".toList ≠ [] ∧
      (Mqtt_ClientCallback false topicLedBrightnessCmnd "99999999999".toList mqttProps
          = (mqttProps, [.logMsg .mqttMsgReceived,
              .setLedBrightness (toNumber 255 "99999999999".toList)]) ∧
        (255 < digitsVal (leadingDigits "99999999999".toList) →
          toNumber 255 "99999999999".toList = 255) ∧
        (leadingDigits "99999999999".toList = [] →
          toNumber 255 "99999999999".toList = 0)) :=
  ⟨by decide, led_brightness_clamp false mqttProps "99999999999".toList (by decide)⟩

/-! ## RFID tag-assignment store adapter (Web.cpp, tagIdToJSON and
handlePostRFIDRequest) -/

/-- Modelled from the spec: the fixed internal delimiter of the persisted
tag-assignment string (values.h, not among the provided sources). -/
def stringDelimiter : Char := '#'

/-- The RFID NVS namespace: persisted key-value pairs, most recent first. -/
abbrev Store := List (String × List Char)

/-- Preferences getString with a default, as used on gPrefsRfid. -/
def getString (store : Store) (key : String) (dflt : List Char) : List Char :=
  match store.lookup key with
  | some v => v
  | none => dflt

/-- Preferences putString on gPrefsRfid. -/
def putString (store : Store) (key : String) (v : List Char) : Store :=
  (key, v) :: store

/-- Splitting a character list at the delimiter, keeping empty groups. -/
def splitDelim : List Char → List (List Char)
  | [] => [[]]
  | c :: rest =>
    if c = stringDelimiter then [] :: splitDelim rest
    else
      match splitDelim rest with
      | [] => [[c]]
      | g :: gs => (c :: g) :: gs

/-- strtok semantics: the nonempty substrings between delimiters. -/
def tokenize (s : List Char) : List (List Char) :=
  (splitDelim s).filter (fun t => !t.isEmpty)

/-- strtoul base 10 on a token: parse the leading digits, clamping to
ULONG_MAX (32-bit unsigned long on this target). -/
def parseUL (s : List Char) : Nat :=
  min (digitsVal (leadingDigits s)) 4294967295

def digitChar (d : Nat) : Char := Char.ofNat (48 + d)

/-- Helper for toDec, structurally recursive on a fuel argument. -/
def toDecAux : Nat → Nat → List Char
  | 0, _ => []
  | fuel + 1, n =>
    if n < 10 then [digitChar n]
    else toDecAux fuel (n / 10) ++ [digitChar (n % 10)]

/-- Decimal rendering of an unsigned value, as produced by snprintf %u. -/
def toDec (n : Nat) : List Char := toDecAux (n + 1) n

/-- The decoded tag-assignment record: module-id variant or file variant. -/
inductive TagEntry
  | modEntry (id : String) (modId : Nat)
  | fileEntry (id : String) (fileOrUrl : List Char)
      (playMode lastPlayPos trackLastPlayed : Nat)
  deriving DecidableEq

/-- Shallow embedding of tagIdToJSON (Web.cpp lines 1810-1845): look the tag
up in NVS, split the stored string at the delimiter with strtok, extract up to
four positional fields (file, last play position as uint32, mode defaulting
to 1, last played track as uint16) and build either the module-id entry (mode
at least 100) or the file entry.  The 255-char file buffer truncation and the
uninitialized buffer for a token-free string are memory-level details not
modelled; a token-free string decodes to an empty file name. -/
def tagIdToJSON (store : Store) (tagId : String) : Option TagEntry :=
  let s := getString store tagId "-1".toList
  if s = "-1".toList then none
  else
    let toks := tokenize s
    let file := toks.getD 0 []
    let lastPlayPos := if 2 ≤ toks.length then parseUL (toks.getD 1 []) else 0
    let mode := if 3 ≤ toks.length then parseUL (toks.getD 2 []) else 1
    let trackLastPlayed :=
      if 4 ≤ toks.length then parseUL (toks.getD 3 []) % 65536 else 0
    if 100 ≤ mode then some (.modEntry tagId mode)
    else some (.fileEntry tagId file mode lastPlayPos trackLastPlayed)

/-- The JSON body of a POST to the rfid endpoint: a missing fileOrUrl decodes
to the empty string, a missing playMode to 0 (uint8 of a null JSON value). -/
structure RfidPostBody where
  id : String
  fileOrUrl : List Char
  modId : Option Nat
  playMode : Nat
  deriving DecidableEq

inductive RfidPostOutcome
  | err (code : Nat)
  | ok (entry : Option TagEntry)
  deriving DecidableEq

structure RfidPostResult where
  store : Store
  outcome : RfidPostOutcome
  backupWritten : Bool
  deriving DecidableEq

/-- Shallow embedding of handlePostRFIDRequest (Web.cpp lines 1936-1977):
validate the id and the play-mode/mod-id (a uint8, rejected when zero),
persist the delimiter-encoded record, re-read it to verify durability, write
the backup file and answer with the decoded record.  The 275-char snprintf
buffer truncation is a memory-level detail not modelled. -/
def handlePostRFIDRequest (store : Store) (body : RfidPostBody) : RfidPostResult :=
  if body.id = "" then ⟨store, .err 500, false⟩
  else
    let fileOrUrl := if body.fileOrUrl = [] then ['0'] else body.fileOrUrl
    let v : Nat := (match body.modId with | some m => m | none => body.playMode) % 256
    if v = 0 then ⟨store, .err 500, false⟩
    else
      let rfidString :=
        [stringDelimiter] ++ fileOrUrl ++ [stringDelimiter, '0', stringDelimiter]
          ++ toDec v ++ [stringDelimiter, '0']
      let store1 := putString store body.id rfidString
      if getString store1 body.id "-1".toList ≠ rfidString then
        ⟨store1, .err 500, false⟩
      else ⟨store1, .ok (tagIdToJSON store1 body.id), true⟩

lemma splitDelim_no_delim (a : List Char) (h : stringDelimiter ∉ a) :
    splitDelim a = [a] := by
  induction a with
  | nil => rfl
  | cons c a ih =>
    have hc : ¬ c = stringDelimiter := by
      intro hcon
      exact h (by simp [hcon])
    have ha : stringDelimiter ∉ a := fun hm => h (List.mem_cons_of_mem _ hm)
    simp [splitDelim, hc, ih ha]

lemma splitDelim_append (a r : List Char) (h : stringDelimiter ∉ a) :
    splitDelim (a ++ stringDelimiter :: r) = a :: splitDelim r := by
  induction a with
  | nil => simp [splitDelim]
  | cons c a ih =>
    have hc : ¬ c = stringDelimiter := by
      intro hcon
      exact h (by simp [hcon])
    have ha : stringDelimiter ∉ a := fun hm => h (List.mem_cons_of_mem _ hm)
    simp [splitDelim, hc, ih ha]

lemma splitDelim_cons_delim (r : List Char) :
    splitDelim (stringDelimiter :: r) = [] :: splitDelim r := by
  simp [splitDelim]

/-- Tokenizing a well-formed encoded record yields its four fields. -/
lemma tokenize_encoded (f ds : List Char) (hf : f ≠ []) (hfd : stringDelimiter ∉ f)
    (hds : ds ≠ []) (hdd : stringDelimiter ∉ ds) :
    tokenize ([stringDelimiter] ++ f ++ [stringDelimiter, '0', stringDelimiter]
        ++ ds ++ [stringDelimiter, '0'])
      = [f, ['0'], ds, ['0']] := by
  have e : [stringDelimiter] ++ f ++ [stringDelimiter, '0', stringDelimiter]
      ++ ds ++ [stringDelimiter, '0']
      = stringDelimiter :: (f ++ stringDelimiter ::
          (['0'] ++ stringDelimiter :: (ds ++ stringDelimiter :: ['0']))) := by
    simp
  have hf' : f.isEmpty = false := by simp [List.isEmpty_iff, hf]
  have hds' : ds.isEmpty = false := by simp [List.isEmpty_iff, hds]
  rw [tokenize, e, splitDelim_cons_delim, splitDelim_append f _ hfd,
    splitDelim_append ['0'] _ (by decide), splitDelim_append ds _ hdd,
    splitDelim_no_delim ['0'] (by decide)]
  simp [List.filter, hf', hds']

set_option maxRecDepth 4000 in
/-- Digit facts for the uint8 values written by the POST handler. -/
lemma toDec_facts : ∀ v, v < 256 →
    (toDec v ≠ [] ∧ stringDelimiter ∉ toDec v ∧ parseUL (toDec v) = v) := by
  decide

lemma getString_putString (st : Store) (k : String) (val : List Char) :
    getString (putString st k val) k "-1".toList = val := by
  simp [getString, putString, List.lookup]

/-- C5 as amended: assigning a tag record whose fileOrUrl is nonempty and free
of the internal delimiter, with a nonzero uint8 play-mode or mod-id v, then
looking the same tag up returns the module-id entry exactly when v is at
least 100 and otherwise the file entry with the input fileOrUrl and play-mode
and zero lastPlayPos and trackLastPlayed; every successful assignment writes
the backup file, and decoding tolerates missing trailing fields with the
defaults mode 1, lastPlayPos 0, trackLastPlayed 0. -/
theorem rfid_assign_lookup (store : Store) (body : RfidPostBody) (v : Nat)
    (hfu : body.fileOrUrl ≠ []) (hnd : stringDelimiter ∉ body.fileOrUrl)
    (hid : ¬ body.id = "")
    (hveq : (match body.modId with | some m => m | none => body.playMode) % 256 = v)
    (hv : v ≠ 0) :
    (handlePostRFIDRequest store body).backupWritten = true ∧
      (handlePostRFIDRequest store body).outcome
        = .ok (some (if 100 ≤ v then TagEntry.modEntry body.id v
            else TagEntry.fileEntry body.id body.fileOrUrl v 0 0)) ∧
      tagIdToJSON (handlePostRFIDRequest store body).store body.id
        = some (if 100 ≤ v then TagEntry.modEntry body.id v
            else TagEntry.fileEntry body.id body.fileOrUrl v 0 0) ∧
      (∀ (tag : String) (f : List Char), f ≠ [] → stringDelimiter ∉ f →
        tagIdToJSON [(tag, stringDelimiter :: f)] tag
          = some (TagEntry.fileEntry tag f 1 0 0)) := by
  have hvlt : v < 256 := by
    rw [← hveq]
    exact Nat.mod_lt _ (by norm_num)
  obtain ⟨hdne, hdnm, hdparse⟩ := toDec_facts v hvlt
  have hdec : tagIdToJSON
      (putString store body.id
        ([stringDelimiter] ++ body.fileOrUrl
          ++ [stringDelimiter, '0', stringDelimiter] ++ toDec v
          ++ [stringDelimiter, '0'])) body.id
      = some (if 100 ≤ v then TagEntry.modEntry body.id v
          else TagEntry.fileEntry body.id body.fileOrUrl v 0 0) := by
    have hRne : [stringDelimiter] ++ body.fileOrUrl
        ++ [stringDelimiter, '0', stringDelimiter] ++ toDec v
        ++ [stringDelimiter, '0'] ≠ "-1".toList := by
      intro hcon
      have hh := congrArg (fun l => l.head?) hcon
      simp at hh
      exact absurd hh (by decide)
    simp only [tagIdToJSON, getString_putString, if_neg hRne]
    rw [tokenize_encoded body.fileOrUrl (toDec v) hfu hnd hdne hdnm]
    have h0 : parseUL ['0'] = 0 := by decide
    by_cases h100 : 100 ≤ v <;> norm_num [h0, hdparse, h100]
  constructor
  · simp only [handlePostRFIDRequest, if_neg hid, if_neg hfu, hveq, if_neg hv,
      getString_putString]
    simp
  constructor
  · simp only [handlePostRFIDRequest, if_neg hid, if_neg hfu, hveq, if_neg hv,
      getString_putString]
    simpa using hdec
  constructor
  · simp only [handlePostRFIDRequest, if_neg hid, if_neg hfu, hveq, if_neg hv,
      getString_putString]
    simpa using hdec
  · intro tag f hf hfd
    have hRne : stringDelimiter :: f ≠ "-1".toList := by
      intro hcon
      have hh := congrArg (fun l => l.head?) hcon
      simp at hh
      exact absurd hh (by decide)
    have hlook : getString [(tag, stringDelimiter :: f)] tag "-1".toList
        = stringDelimiter :: f := by
      simp [getString, List.lookup]
    have hf' : f.isEmpty = false := by simp [List.isEmpty_iff, hf]
    simp only [tagIdToJSON, hlook, if_neg hRne, tokenize, splitDelim_cons_delim,
      splitDelim_no_delim f hfd]
    simp [List.filter, hf']

/-- Counterexample to C5 as stated: a fileOrUrl containing the internal
delimiter round-trips to a record whose fileOrUrl is truncated at the
delimiter, whose playMode is 0 instead of the input 1 and whose
trackLastPlayed is 1 instead of 0. -/
theorem rfid_roundtrip_delimiter_cex :
    (handlePostRFIDRequest [] ⟨"1234", ['a', '#', 'b'], none, 1⟩).outcome
        = .ok (some (.fileEntry "1234" ['a'] 0 0 1)) ∧
      TagEntry.fileEntry "1234" ['a'] 0 0 1
        ≠ .fileEntry "1234" ['a', '#', 'b'] 1 0 0 := by
  decide

/-- A concrete POST body realizing the scenario of the specification. -/
def c5Body : RfidPostBody := ⟨"1234", "/music/a.mp3".toList, none, 1⟩

theorem rfid_assign_lookup_witness :
    c5Body.fileOrUrl ≠ [] ∧ stringDelimiter ∉ c5Body.fileOrUrl ∧
      ¬ c5Body.id = "" ∧
      (match c5Body.modId with | some m => m | none => c5Body.playMode) % 256 = 1 ∧
      (1 : Nat) ≠ 0 ∧
      ((handlePostRFIDRequest [] c5Body).backupWritten = true ∧
        (handlePostRFIDRequest [] c5Body).outcome
          = .ok (some (if 100 ≤ 1 then TagEntry.modEntry c5Body.id 1
              else TagEntry.fileEntry c5Body.id c5Body.fileOrUrl 1 0 0)) ∧
        tagIdToJSON (handlePostRFIDRequest [] c5Body).store c5Body.id
          = some (if 100 ≤ 1 then TagEntry.modEntry c5Body.id 1
              else TagEntry.fileEntry c5Body.id c5Body.fileOrUrl 1 0 0) ∧
        (∀ (tag : String) (f : List Char), f ≠ [] → stringDelimiter ∉ f →
          tagIdToJSON [(tag, stringDelimiter :: f)] tag
            = some (TagEntry.fileEntry tag f 1 0 0))) :=
  ⟨by decide, by decide, by decide, by decide, by decide,
    rfid_assign_lookup [] c5Body 1 (by decide) (by decide) (by decide)
      (by decide) (by decide)⟩

/-! ## Upload-buffer allocation (Web.cpp, allocateDoubleBuffer and the upload
prologue of explorerHandleFileUpload) -/

/-- Number of allocation retry rounds; mirrors retry_count = 2 in Web.cpp. -/
def retry_count : Nat := 2

/-- Whether each of the two buffer pointers is non-null. -/
structure AllocBuffers where
  b0 : Bool
  b1 : Bool
  deriving DecidableEq

/-- The checkAndAlloc lambda (Web.cpp lines 129-138): keep an existing
pointer, otherwise consume one answer of the heap oracle (one entry per
actual heap_caps_aligned_alloc call; an exhausted oracle refuses). -/
def checkAndAlloc : Bool → List Bool → Bool × Bool × List Bool
  | true, oracle => (true, true, oracle)
  | false, [] => (false, false, [])
  | false, o :: rest => (o, o, rest)

/-- One round of the allocation loop body (Web.cpp lines 147-150): attempt
both buffers, accumulating success with a non-short-circuiting and. -/
def allocRound (bufs : AllocBuffers) (oracle : List Bool) :
    Bool × AllocBuffers × List Bool :=
  let r0 := checkAndAlloc bufs.b0 oracle
  let r1 := checkAndAlloc bufs.b1 r0.2.2
  (r0.1 && r1.1, ⟨r0.2.1, r1.2.1⟩, r1.2.2)

structure AllocResult where
  success : Bool
  chunk_size : Nat
  bufs : AllocBuffers
  tried : List Nat
  deriving DecidableEq

/-- The retry loop of allocateDoubleBuffer (Web.cpp lines 140-161): break
below the 256-byte floor, return on success, otherwise free all buffers,
halve the chunk size and retry; after the loop free everything and fail.
tried records the chunk size of every round that attempted allocation. -/
def allocLoop : Nat → Nat → AllocBuffers → List Bool → List Nat → AllocResult
  | 0, chunk, _, _, tried => ⟨false, chunk, ⟨false, false⟩, tried⟩
  | retries + 1, chunk, bufs, oracle, tried =>
    if chunk < 256 then ⟨false, chunk, ⟨false, false⟩, tried⟩
    else
      let r := allocRound bufs oracle
      if r.1 then ⟨true, chunk, r.2.1, tried ++ [chunk]⟩
      else allocLoop retries (chunk / 2) ⟨false, false⟩ r.2.2 (tried ++ [chunk])

/-- Shallow embedding of allocateDoubleBuffer (Web.cpp lines 128-162). -/
def allocateDoubleBuffer (start_chunk_size : Nat) (bufs : AllocBuffers)
    (oracle : List Bool) : AllocResult :=
  allocLoop retry_count start_chunk_size bufs oracle []

structure UploadBeginResult where
  responseCode : Option Nat
  taskStarted : Bool
  alloc : AllocResult
  deriving DecidableEq

/-- Shallow embedding of the upload-start prologue of explorerHandleFileUpload
(Web.cpp lines 1279-1309): on allocation failure report 500 to the caller and
return before the storage task is created; on success reset the buffers and
start the storage task. -/
def explorerUploadBegin (start : Nat) (bufs : AllocBuffers)
    (oracle : List Bool) : UploadBeginResult :=
  let r := allocateDoubleBuffer start bufs oracle
  if r.success then ⟨none, true, r⟩ else ⟨some 500, false, r⟩

lemma checkAndAlloc_fst_eq (b : Bool) (oracle : List Bool) :
    (checkAndAlloc b oracle).1 = (checkAndAlloc b oracle).2.1 := by
  cases b <;> cases oracle <;> rfl

lemma allocRound_true (bufs : AllocBuffers) (oracle : List Bool)
    (h : (allocRound bufs oracle).1 = true) :
    (allocRound bufs oracle).2.1 = ⟨true, true⟩ := by
  simp only [allocRound, Bool.and_eq_true] at h ⊢
  rw [checkAndAlloc_fst_eq] at h
  obtain ⟨h0, h1⟩ := h
  rw [checkAndAlloc_fst_eq] at h1
  simp [h0, h1]

/-- C4: upload-buffer allocation tries the configured start chunk size and
halves it on each allocation failure, for at most retry_count rounds, never
attempting a size below the 256-byte floor; on failure all buffers are freed,
the caller receives a 500 response and no storage task is started, so a
started storage task always observes both buffers allocated. -/
theorem alloc_retry_floor_and_no_task (start : Nat) (bufs : AllocBuffers)
    (oracle : List Bool) :
    ((allocateDoubleBuffer start bufs oracle).tried = [] ∨
      (allocateDoubleBuffer start bufs oracle).tried = [start] ∨
      (allocateDoubleBuffer start bufs oracle).tried = [start, start / 2]) ∧
    (∀ c ∈ (allocateDoubleBuffer start bufs oracle).tried, 256 ≤ c) ∧
    (start < 256 → (allocateDoubleBuffer start bufs oracle).success = false ∧
      (allocateDoubleBuffer start bufs oracle).tried = []) ∧
    ((allocateDoubleBuffer start bufs oracle).success = false →
      (allocateDoubleBuffer start bufs oracle).bufs = ⟨false, false⟩ ∧
      (explorerUploadBegin start bufs oracle).responseCode = some 500 ∧
      (explorerUploadBegin start bufs oracle).taskStarted = false) ∧
    ((explorerUploadBegin start bufs oracle).taskStarted = true →
      (allocateDoubleBuffer start bufs oracle).success = true ∧
      (allocateDoubleBuffer start bufs oracle).bufs = ⟨true, true⟩) := by
  have e0 : allocateDoubleBuffer start bufs oracle
      = (if start < 256 then ⟨false, start, ⟨false, false⟩, []⟩
         else if (allocRound bufs oracle).1 then
           ⟨true, start, (allocRound bufs oracle).2.1, [start]⟩
         else
           allocLoop 1 (start / 2) ⟨false, false⟩
             (allocRound bufs oracle).2.2 [start]) := rfl
  have e1 : ∀ (o : List Bool),
      allocLoop 1 (start / 2) ⟨false, false⟩ o [start]
        = (if start / 2 < 256 then ⟨false, start / 2, ⟨false, false⟩, [start]⟩
           else if (allocRound ⟨false, false⟩ o).1 then
             ⟨true, start / 2, (allocRound ⟨false, false⟩ o).2.1,
               [start, start / 2]⟩
           else
             ⟨false, start / 2 / 2, ⟨false, false⟩, [start, start / 2]⟩) :=
    fun o => rfl
  simp only [explorerUploadBegin, e0, e1]
  by_cases h1 : start < 256
  · simp [h1]
  · rw [if_neg h1]
    by_cases h2 : (allocRound bufs oracle).1 = true
    · rw [if_pos h2]
      simp [allocRound_true bufs oracle h2, h2]
      omega
    · rw [if_neg h2]
      by_cases h3 : start / 2 < 256
      · simp [h3]
        omega
      · rw [if_neg h3]
        by_cases h4 : (allocRound ⟨false, false⟩ (allocRound bufs oracle).2.2).1 = true
        · rw [if_pos h4]
          simp [allocRound_true _ _ h4, h4]
          omega
        · rw [if_neg h4]
          simp
          omega

end ESPuino
